import Mathlib

/-!
Verification of the credential and configuration orchestration core of a
session-scoped AI coding-agent runner.

The central embedded artifact is the SDK configuration loader
(components/runners/claude-code-runner/sdk_config.py): the
SDKConfigLoader.load_configuration, SDKConfigLoader.apply_to_options and
SDKConfigLoader.merge_mcp_servers operations. Config values and runtime
option objects are embedded as Lean structures with Option fields standing
for Python None or missing dict keys; Python truthiness on those values is
spelled out at each use site, matching the guards of the source line by
line. Python dicts that the code iterates or updates are embedded as
insertion-ordered association lists, with the Python assignment d[k] = v
embedded as an update-in-place-or-append operation.

The git identity configurator and the runtime credential orchestrator are
not shipped in the source tree that accompanies the spec (only their tests
are), so those two operations are modelled from the specification text, as
marked on their doc comments.
-/

/-- One MCP server declaration as it arrives in the configuration document
from the control plane: wire schema
\x7b command: string, args?: string[], env?: \x7b [k]: string \x7d, enabled?: bool \x7d.
Missing keys are embedded as none. -/
structure McpServerConfig where
  command : String
  args : Option (List String)
  env : Option (List (String × String))
  enabled : Option Bool
deriving DecidableEq, Repr

/-- A value stored in an MCP server map. Entries already present in the
existing map (loaded from .mcp.json) are of unknown shape to this core and
are embedded by the constructor ext with an identifying tag; entries built
by merge_mcp_servers from the config document carry command, args and an
optional env mapping (constructor sdk). -/
inductive ServerVal where
  | ext : Nat → ServerVal
  | sdk : String → List String → Option (List (String × String)) → ServerVal
deriving DecidableEq, Repr

/-- An insertion-ordered association list standing for a Python dict. -/
abbrev ServerMap := List (String × ServerVal)

/-- Python dict assignment d[k] = v on an association list: update the
first entry with the given key in place, or append a new entry at the end
when the key is absent. -/
def setKey {α : Type} : List (String × α) → String → α → List (String × α)
  | [], k, v => [(k, v)]
  | (k', v') :: rest, k, v =>
      if k' = k then (k, v) :: rest else (k', v') :: setKey rest k v

/-- Python dict lookup d.get(k) on an association list: the value of the
first entry with the given key, if any. -/
def getKey {α : Type} : List (String × α) → String → Option α
  | [], _ => none
  | (k', v') :: rest, k => if k' = k then some v' else getKey rest k

/-- The per-session SDK configuration document fetched from the control
plane. Each field is an Option: none stands for a missing key or a JSON
null. mcpServers is an insertion-ordered association list standing for the
JSON object of server declarations. -/
structure SDKConfig where
  model : Option String
  maxTokens : Option Int
  temperature : Option ℚ
  permissionMode : Option String
  allowedTools : Option (List String)
  includePartialMessages : Option Bool
  continueConversation : Option Bool
  systemPrompt : Option String
  mcpServers : Option (List (String × McpServerConfig))
deriving DecidableEq, Repr

/-- The mutable ClaudeAgentOptions object, restricted to the semantic
fields this core touches. system_prompt holds the text of the structured
prompt value (none when the prompt is unset). -/
structure RuntimeOptions where
  model : Option String
  max_tokens : Option Int
  temperature : Option ℚ
  permission_mode : Option String
  allowed_tools : List String
  includePartialMessages : Option Bool
  system_prompt : Option String
deriving DecidableEq, Repr

/-- The model block of apply_to_options: if config.get('model') is truthy
(present and a nonempty string), overwrite options.model. -/
def apply_model (o : RuntimeOptions) (c : SDKConfig) : RuntimeOptions :=
  match c.model with
  | some s => if s ≠ "" then { o with model := some s } else o
  | none => o

/-- The max tokens block of apply_to_options: if config.get('maxTokens')
is truthy (present and nonzero), overwrite options.max_tokens. -/
def apply_max_tokens (o : RuntimeOptions) (c : SDKConfig) : RuntimeOptions :=
  match c.maxTokens with
  | some n => if n ≠ 0 then { o with max_tokens := some n } else o
  | none => o

/-- The temperature block of apply_to_options: if config.get('temperature')
is not None, overwrite options.temperature (a present 0.0 is applied). -/
def apply_temperature (o : RuntimeOptions) (c : SDKConfig) : RuntimeOptions :=
  match c.temperature with
  | some t => { o with temperature := some t }
  | none => o

/-- The permission mode block of apply_to_options: if
config.get('permissionMode') is truthy, overwrite options.permission_mode. -/
def apply_permission_mode (o : RuntimeOptions) (c : SDKConfig) : RuntimeOptions :=
  match c.permissionMode with
  | some p => if p ≠ "" then { o with permission_mode := some p } else o
  | none => o

/-- Python str.startswith(p): the characters of p are a leading segment of
the characters of t. -/
def str_starts_with (t p : String) : Bool := p.data.isPrefixOf t.data

/-- The allowed tools block of apply_to_options: if
config.get('allowedTools') is truthy (present and nonempty), replace
options.allowed_tools with the config list concatenated with the
pre-existing tool names that start with mcp__ (the existing_mcp_tools
comprehension of the source). -/
def apply_allowed_tools (o : RuntimeOptions) (c : SDKConfig) : RuntimeOptions :=
  match c.allowedTools with
  | some ts =>
      if ts ≠ [] then
        { o with allowed_tools :=
            ts ++ o.allowed_tools.filter (fun t => str_starts_with t "mcp__") }
      else o
  | none => o

/-- The streaming block of apply_to_options: if
config.get('includePartialMessages') is not None, overwrite the
include-partial-messages flag (a present false is applied). -/
def apply_include_partial_messages (o : RuntimeOptions) (c : SDKConfig) : RuntimeOptions :=
  match c.includePartialMessages with
  | some b => { o with includePartialMessages := some b }
  | none => o

/-- The system prompt block of apply_to_options: if
config.get('systemPrompt') is truthy, append the custom instructions block
to the existing prompt text (empty when the prompt is unset) and store the
merged text. -/
def apply_system_prompt (o : RuntimeOptions) (c : SDKConfig) : RuntimeOptions :=
  match c.systemPrompt with
  | some s =>
      if s ≠ "" then
        let existing_prompt := o.system_prompt.getD ""
        let merged_prompt := existing_prompt ++ "\n\n## Custom Instructions\n" ++ s
        { o with system_prompt := some merged_prompt }
      else o
  | none => o

/-- SDKConfigLoader.apply_to_options: project the configuration document
onto the options object, one field block after the other in source order.
The continueConversation block of the source is a no-op and contributes
nothing. MCP servers are not handled here (they go through
merge_mcp_servers). -/
def apply_to_options (o : RuntimeOptions) (c : SDKConfig) : RuntimeOptions :=
  apply_system_prompt
    (apply_include_partial_messages
      (apply_allowed_tools
        (apply_permission_mode
          (apply_temperature
            (apply_max_tokens
              (apply_model o c) c) c) c) c) c) c

/-- The frontend-to-SDK conversion inside the merge loop: command is
copied, args defaults to the empty list, and env is attached only when
server_config.get('env') is truthy (present and nonempty). -/
def mcp_server_to_sdk (sc : McpServerConfig) : ServerVal :=
  ServerVal.sdk sc.command (sc.args.getD [])
    (match sc.env with
     | some e => if e ≠ [] then some e else none
     | none => none)

/-- One iteration of the merge loop of merge_mcp_servers: a declaration
whose enabled flag is false is skipped; any other declaration is assigned
into the merged dict under its name. -/
def merge_mcp_step (merged : ServerMap) (nv : String × McpServerConfig) : ServerMap :=
  if nv.2.enabled = some false then merged
  else setKey merged nv.1 (mcp_server_to_sdk nv.2)

/-- SDKConfigLoader.merge_mcp_servers: if the config document has no truthy
mcpServers value, return the existing map unchanged; otherwise start from a
copy of the existing map and run the merge loop over the declarations in
config order. -/
def merge_mcp_servers (existing_servers : ServerMap) (c : SDKConfig) : ServerMap :=
  match c.mcpServers with
  | none => existing_servers
  | some [] => existing_servers
  | some servers => servers.foldl merge_mcp_step existing_servers

/-! Projection lemmas: each field block of apply_to_options touches only
its own field of the options object. -/

@[simp] lemma apply_model_max_tokens (o : RuntimeOptions) (c : SDKConfig) :
    (apply_model o c).max_tokens = o.max_tokens := by
  unfold apply_model; split <;> (try split) <;> rfl

@[simp] lemma apply_model_temperature (o : RuntimeOptions) (c : SDKConfig) :
    (apply_model o c).temperature = o.temperature := by
  unfold apply_model; split <;> (try split) <;> rfl

@[simp] lemma apply_model_permission_mode (o : RuntimeOptions) (c : SDKConfig) :
    (apply_model o c).permission_mode = o.permission_mode := by
  unfold apply_model; split <;> (try split) <;> rfl

@[simp] lemma apply_model_allowed_tools (o : RuntimeOptions) (c : SDKConfig) :
    (apply_model o c).allowed_tools = o.allowed_tools := by
  unfold apply_model; split <;> (try split) <;> rfl

@[simp] lemma apply_model_include_partial (o : RuntimeOptions) (c : SDKConfig) :
    (apply_model o c).includePartialMessages = o.includePartialMessages := by
  unfold apply_model; split <;> (try split) <;> rfl

@[simp] lemma apply_model_system_prompt (o : RuntimeOptions) (c : SDKConfig) :
    (apply_model o c).system_prompt = o.system_prompt := by
  unfold apply_model; split <;> (try split) <;> rfl

@[simp] lemma apply_max_tokens_model (o : RuntimeOptions) (c : SDKConfig) :
    (apply_max_tokens o c).model = o.model := by
  unfold apply_max_tokens; split <;> (try split) <;> rfl

@[simp] lemma apply_max_tokens_temperature (o : RuntimeOptions) (c : SDKConfig) :
    (apply_max_tokens o c).temperature = o.temperature := by
  unfold apply_max_tokens; split <;> (try split) <;> rfl

@[simp] lemma apply_max_tokens_permission_mode (o : RuntimeOptions) (c : SDKConfig) :
    (apply_max_tokens o c).permission_mode = o.permission_mode := by
  unfold apply_max_tokens; split <;> (try split) <;> rfl

@[simp] lemma apply_max_tokens_allowed_tools (o : RuntimeOptions) (c : SDKConfig) :
    (apply_max_tokens o c).allowed_tools = o.allowed_tools := by
  unfold apply_max_tokens; split <;> (try split) <;> rfl

@[simp] lemma apply_max_tokens_include_partial (o : RuntimeOptions) (c : SDKConfig) :
    (apply_max_tokens o c).includePartialMessages = o.includePartialMessages := by
  unfold apply_max_tokens; split <;> (try split) <;> rfl

@[simp] lemma apply_max_tokens_system_prompt (o : RuntimeOptions) (c : SDKConfig) :
    (apply_max_tokens o c).system_prompt = o.system_prompt := by
  unfold apply_max_tokens; split <;> (try split) <;> rfl

@[simp] lemma apply_temperature_model (o : RuntimeOptions) (c : SDKConfig) :
    (apply_temperature o c).model = o.model := by
  unfold apply_temperature; split <;> rfl

@[simp] lemma apply_temperature_max_tokens (o : RuntimeOptions) (c : SDKConfig) :
    (apply_temperature o c).max_tokens = o.max_tokens := by
  unfold apply_temperature; split <;> rfl

@[simp] lemma apply_temperature_permission_mode (o : RuntimeOptions) (c : SDKConfig) :
    (apply_temperature o c).permission_mode = o.permission_mode := by
  unfold apply_temperature; split <;> rfl

@[simp] lemma apply_temperature_allowed_tools (o : RuntimeOptions) (c : SDKConfig) :
    (apply_temperature o c).allowed_tools = o.allowed_tools := by
  unfold apply_temperature; split <;> rfl

@[simp] lemma apply_temperature_include_partial (o : RuntimeOptions) (c : SDKConfig) :
    (apply_temperature o c).includePartialMessages = o.includePartialMessages := by
  unfold apply_temperature; split <;> rfl

@[simp] lemma apply_temperature_system_prompt (o : RuntimeOptions) (c : SDKConfig) :
    (apply_temperature o c).system_prompt = o.system_prompt := by
  unfold apply_temperature; split <;> rfl

@[simp] lemma apply_permission_mode_model (o : RuntimeOptions) (c : SDKConfig) :
    (apply_permission_mode o c).model = o.model := by
  unfold apply_permission_mode; split <;> (try split) <;> rfl

@[simp] lemma apply_permission_mode_max_tokens (o : RuntimeOptions) (c : SDKConfig) :
    (apply_permission_mode o c).max_tokens = o.max_tokens := by
  unfold apply_permission_mode; split <;> (try split) <;> rfl

@[simp] lemma apply_permission_mode_temperature (o : RuntimeOptions) (c : SDKConfig) :
    (apply_permission_mode o c).temperature = o.temperature := by
  unfold apply_permission_mode; split <;> (try split) <;> rfl

@[simp] lemma apply_permission_mode_allowed_tools (o : RuntimeOptions) (c : SDKConfig) :
    (apply_permission_mode o c).allowed_tools = o.allowed_tools := by
  unfold apply_permission_mode; split <;> (try split) <;> rfl

@[simp] lemma apply_permission_mode_include_partial (o : RuntimeOptions) (c : SDKConfig) :
    (apply_permission_mode o c).includePartialMessages = o.includePartialMessages := by
  unfold apply_permission_mode; split <;> (try split) <;> rfl

@[simp] lemma apply_permission_mode_system_prompt (o : RuntimeOptions) (c : SDKConfig) :
    (apply_permission_mode o c).system_prompt = o.system_prompt := by
  unfold apply_permission_mode; split <;> (try split) <;> rfl

@[simp] lemma apply_allowed_tools_model (o : RuntimeOptions) (c : SDKConfig) :
    (apply_allowed_tools o c).model = o.model := by
  unfold apply_allowed_tools; split <;> (try split) <;> rfl

@[simp] lemma apply_allowed_tools_max_tokens (o : RuntimeOptions) (c : SDKConfig) :
    (apply_allowed_tools o c).max_tokens = o.max_tokens := by
  unfold apply_allowed_tools; split <;> (try split) <;> rfl

@[simp] lemma apply_allowed_tools_temperature (o : RuntimeOptions) (c : SDKConfig) :
    (apply_allowed_tools o c).temperature = o.temperature := by
  unfold apply_allowed_tools; split <;> (try split) <;> rfl

@[simp] lemma apply_allowed_tools_permission_mode (o : RuntimeOptions) (c : SDKConfig) :
    (apply_allowed_tools o c).permission_mode = o.permission_mode := by
  unfold apply_allowed_tools; split <;> (try split) <;> rfl

@[simp] lemma apply_allowed_tools_include_partial (o : RuntimeOptions) (c : SDKConfig) :
    (apply_allowed_tools o c).includePartialMessages = o.includePartialMessages := by
  unfold apply_allowed_tools; split <;> (try split) <;> rfl

@[simp] lemma apply_allowed_tools_system_prompt (o : RuntimeOptions) (c : SDKConfig) :
    (apply_allowed_tools o c).system_prompt = o.system_prompt := by
  unfold apply_allowed_tools; split <;> (try split) <;> rfl

@[simp] lemma apply_include_partial_model (o : RuntimeOptions) (c : SDKConfig) :
    (apply_include_partial_messages o c).model = o.model := by
  unfold apply_include_partial_messages; split <;> rfl

@[simp] lemma apply_include_partial_max_tokens (o : RuntimeOptions) (c : SDKConfig) :
    (apply_include_partial_messages o c).max_tokens = o.max_tokens := by
  unfold apply_include_partial_messages; split <;> rfl

@[simp] lemma apply_include_partial_temperature (o : RuntimeOptions) (c : SDKConfig) :
    (apply_include_partial_messages o c).temperature = o.temperature := by
  unfold apply_include_partial_messages; split <;> rfl

@[simp] lemma apply_include_partial_permission_mode (o : RuntimeOptions) (c : SDKConfig) :
    (apply_include_partial_messages o c).permission_mode = o.permission_mode := by
  unfold apply_include_partial_messages; split <;> rfl

@[simp] lemma apply_include_partial_allowed_tools (o : RuntimeOptions) (c : SDKConfig) :
    (apply_include_partial_messages o c).allowed_tools = o.allowed_tools := by
  unfold apply_include_partial_messages; split <;> rfl

@[simp] lemma apply_include_partial_system_prompt (o : RuntimeOptions) (c : SDKConfig) :
    (apply_include_partial_messages o c).system_prompt = o.system_prompt := by
  unfold apply_include_partial_messages; split <;> rfl

@[simp] lemma apply_system_prompt_model (o : RuntimeOptions) (c : SDKConfig) :
    (apply_system_prompt o c).model = o.model := by
  unfold apply_system_prompt; split <;> (try split) <;> rfl

@[simp] lemma apply_system_prompt_max_tokens (o : RuntimeOptions) (c : SDKConfig) :
    (apply_system_prompt o c).max_tokens = o.max_tokens := by
  unfold apply_system_prompt; split <;> (try split) <;> rfl

@[simp] lemma apply_system_prompt_temperature (o : RuntimeOptions) (c : SDKConfig) :
    (apply_system_prompt o c).temperature = o.temperature := by
  unfold apply_system_prompt; split <;> (try split) <;> rfl

@[simp] lemma apply_system_prompt_permission_mode (o : RuntimeOptions) (c : SDKConfig) :
    (apply_system_prompt o c).permission_mode = o.permission_mode := by
  unfold apply_system_prompt; split <;> (try split) <;> rfl

@[simp] lemma apply_system_prompt_allowed_tools (o : RuntimeOptions) (c : SDKConfig) :
    (apply_system_prompt o c).allowed_tools = o.allowed_tools := by
  unfold apply_system_prompt; split <;> (try split) <;> rfl

@[simp] lemma apply_system_prompt_include_partial (o : RuntimeOptions) (c : SDKConfig) :
    (apply_system_prompt o c).includePartialMessages = o.includePartialMessages := by
  unfold apply_system_prompt; split <;> (try split) <;> rfl

/-! Characterizations of apply_to_options, one field at a time. -/

lemma apply_to_options_model_eq (o : RuntimeOptions) (c : SDKConfig) :
    (apply_to_options o c).model =
      (match c.model with
       | some s => if s ≠ "" then some s else o.model
       | none => o.model) := by
  unfold apply_to_options
  simp
  unfold apply_model
  split <;> (try split) <;> simp_all

lemma apply_to_options_max_tokens_eq (o : RuntimeOptions) (c : SDKConfig) :
    (apply_to_options o c).max_tokens =
      (match c.maxTokens with
       | some n => if n ≠ 0 then some n else o.max_tokens
       | none => o.max_tokens) := by
  unfold apply_to_options
  simp
  unfold apply_max_tokens
  split <;> (try split) <;> simp_all

lemma apply_to_options_temperature_eq (o : RuntimeOptions) (c : SDKConfig) :
    (apply_to_options o c).temperature =
      (match c.temperature with
       | some t => some t
       | none => o.temperature) := by
  unfold apply_to_options
  simp
  unfold apply_temperature
  split <;> simp_all

lemma apply_to_options_permission_mode_eq (o : RuntimeOptions) (c : SDKConfig) :
    (apply_to_options o c).permission_mode =
      (match c.permissionMode with
       | some p => if p ≠ "" then some p else o.permission_mode
       | none => o.permission_mode) := by
  unfold apply_to_options
  simp
  unfold apply_permission_mode
  split <;> (try split) <;> simp_all

lemma apply_to_options_allowed_tools_eq (o : RuntimeOptions) (c : SDKConfig) :
    (apply_to_options o c).allowed_tools =
      (match c.allowedTools with
       | some ts =>
           if ts ≠ [] then
             ts ++ o.allowed_tools.filter (fun t => str_starts_with t "mcp__")
           else o.allowed_tools
       | none => o.allowed_tools) := by
  unfold apply_to_options
  simp
  unfold apply_allowed_tools
  split <;> (try split) <;> simp_all

lemma apply_to_options_include_partial_eq (o : RuntimeOptions) (c : SDKConfig) :
    (apply_to_options o c).includePartialMessages =
      (match c.includePartialMessages with
       | some b => some b
       | none => o.includePartialMessages) := by
  unfold apply_to_options
  simp
  unfold apply_include_partial_messages
  split <;> simp_all

lemma apply_to_options_system_prompt_eq (o : RuntimeOptions) (c : SDKConfig) :
    (apply_to_options o c).system_prompt =
      (match c.systemPrompt with
       | some s =>
           if s ≠ "" then
             some ((o.system_prompt.getD "") ++ "\n\n## Custom Instructions\n" ++ s)
           else o.system_prompt
       | none => o.system_prompt) := by
  unfold apply_to_options
  unfold apply_system_prompt
  split <;> (try split) <;> simp_all

/-- C2: when the config carries a present, nonempty allowedTools list, the
allowed_tools of the options after apply_to_options are, as a set, the
config list together with exactly those pre-existing tool names that start
with mcp__; every pre-existing mcp__-prefixed tool survives and every other
pre-existing tool not listed in the config is gone. -/
theorem allowed_tools_replace_preserves_mcp
    (o : RuntimeOptions) (c : SDKConfig) (ts : List String)
    (hts : c.allowedTools = some ts) (hne : ts ≠ []) :
    ∀ t, t ∈ (apply_to_options o c).allowed_tools ↔
      t ∈ ts ∨ (t ∈ o.allowed_tools ∧ str_starts_with t "mcp__" = true) := by
  intro t
  rw [apply_to_options_allowed_tools_eq, hts]
  simp [hne, List.mem_filter]

/-- Witness for C2 at the literal scenario of the spec: existing tools
[Read, mcp__gdrive__list], config allowedTools [Bash]; the mcp tool is in
the result and the replaced non-MCP tool is not. -/
theorem allowed_tools_replace_preserves_mcp_witness :
    ("mcp__gdrive__list" ∈ (apply_to_options
        ⟨none, none, none, none, ["Read", "mcp__gdrive__list"], none, none⟩
        ⟨none, none, none, none, some ["Bash"], none, none, none, none⟩).allowed_tools)
    ∧ ¬ ("Read" ∈ (apply_to_options
        ⟨none, none, none, none, ["Read", "mcp__gdrive__list"], none, none⟩
        ⟨none, none, none, none, some ["Bash"], none, none, none, none⟩).allowed_tools) := by
  constructor
  · exact (allowed_tools_replace_preserves_mcp
      ⟨none, none, none, none, ["Read", "mcp__gdrive__list"], none, none⟩
      ⟨none, none, none, none, some ["Bash"], none, none, none, none⟩
      ["Bash"] rfl (by decide) "mcp__gdrive__list").mpr (by decide)
  · intro hmem
    have := (allowed_tools_replace_preserves_mcp
      ⟨none, none, none, none, ["Read", "mcp__gdrive__list"], none, none⟩
      ⟨none, none, none, none, some ["Bash"], none, none, none, none⟩
      ["Bash"] rfl (by decide) "Read").mp hmem
    revert this
    decide

/-- C5: applying apply_to_options a second time with the same config leaves
every options field in the state of the first application, with
allowed_tools compared as sets; the one exception is system_prompt, which
gains one further appended Custom Instructions block whenever the config
carries a truthy systemPrompt. -/
theorem apply_to_options_idempotent_except_system_prompt
    (o : RuntimeOptions) (c : SDKConfig) :
    (apply_to_options (apply_to_options o c) c).model = (apply_to_options o c).model
    ∧ (apply_to_options (apply_to_options o c) c).max_tokens = (apply_to_options o c).max_tokens
    ∧ (apply_to_options (apply_to_options o c) c).temperature = (apply_to_options o c).temperature
    ∧ (apply_to_options (apply_to_options o c) c).permission_mode = (apply_to_options o c).permission_mode
    ∧ (apply_to_options (apply_to_options o c) c).includePartialMessages
        = (apply_to_options o c).includePartialMessages
    ∧ (∀ t, t ∈ (apply_to_options (apply_to_options o c) c).allowed_tools ↔
        t ∈ (apply_to_options o c).allowed_tools)
    ∧ (apply_to_options (apply_to_options o c) c).system_prompt =
        (match c.systemPrompt with
         | some s =>
             if s ≠ "" then
               some (((apply_to_options o c).system_prompt.getD "")
                 ++ "\n\n## Custom Instructions\n" ++ s)
             else (apply_to_options o c).system_prompt
         | none => (apply_to_options o c).system_prompt) := by
  refine ⟨?_, ?_, ?_, ?_, ?_, ?_, ?_⟩
  · cases hc : c.model with
    | none => simp [apply_to_options_model_eq, hc]
    | some s =>
        by_cases hs : s = "" <;> simp [apply_to_options_model_eq, hc, hs]
  · cases hc : c.maxTokens with
    | none => simp [apply_to_options_max_tokens_eq, hc]
    | some n =>
        by_cases hn : n = 0 <;> simp [apply_to_options_max_tokens_eq, hc, hn]
  · cases hc : c.temperature with
    | none => simp [apply_to_options_temperature_eq, hc]
    | some t => simp [apply_to_options_temperature_eq, hc]
  · cases hc : c.permissionMode with
    | none => simp [apply_to_options_permission_mode_eq, hc]
    | some p =>
        by_cases hp : p = "" <;> simp [apply_to_options_permission_mode_eq, hc, hp]
  · cases hc : c.includePartialMessages with
    | none => simp [apply_to_options_include_partial_eq, hc]
    | some b => simp [apply_to_options_include_partial_eq, hc]
  · intro t
    cases hc : c.allowedTools with
    | none => simp [apply_to_options_allowed_tools_eq, hc]
    | some ts =>
        by_cases hts : ts = []
        · simp [apply_to_options_allowed_tools_eq, hc, hts]
        · simp only [apply_to_options_allowed_tools_eq, hc, hts, if_pos, ne_eq,
            not_false_iff, List.mem_append, List.mem_filter]
          constructor
          · rintro (h | ⟨(h | ⟨h, _⟩), hp⟩)
            · exact Or.inl h
            · exact Or.inl h
            · exact Or.inr ⟨h, hp⟩
          · rintro (h | ⟨h, hp⟩)
            · exact Or.inl h
            · exact Or.inr ⟨Or.inr ⟨h, hp⟩, hp⟩
  · exact apply_to_options_system_prompt_eq (apply_to_options o c) c

/-- Counterexample to C6 as stated: a config whose maxTokens key is present
with the value 0 does not overwrite max_tokens, because the source guards
the block with a truthiness test and 0 is falsy; pre-existing max_tokens 5
survives. -/
theorem maxTokens_zero_ignored_cex :
    (⟨none, some 0, none, none, none, none, none, none, none⟩ : SDKConfig).maxTokens = some 0
    ∧ (apply_to_options
        ⟨none, some 5, none, none, [], none, none⟩
        ⟨none, some 0, none, none, none, none, none, none, none⟩).max_tokens = some 5
    ∧ (apply_to_options
        ⟨none, some 5, none, none, [], none, none⟩
        ⟨none, some 0, none, none, none, none, none, none, none⟩).max_tokens ≠ some 0 := by
  refine ⟨rfl, by decide, by decide⟩

/-- C6 amended: a present maxTokens overwrites max_tokens exactly when it
is nonzero; a maxTokens of 0 is ignored like a missing or null key, because
the source uses a truthiness guard. -/
theorem maxTokens_overwrites_when_nonzero (o : RuntimeOptions) (c : SDKConfig) :
    (∀ n : ℤ, c.maxTokens = some n → n ≠ 0 → (apply_to_options o c).max_tokens = some n)
    ∧ (c.maxTokens = some 0 → (apply_to_options o c).max_tokens = o.max_tokens)
    ∧ (c.maxTokens = none → (apply_to_options o c).max_tokens = o.max_tokens) := by
  refine ⟨?_, ?_, ?_⟩
  · intro n hn hnz
    simp [apply_to_options_max_tokens_eq, hn, hnz]
  · intro hn
    simp [apply_to_options_max_tokens_eq, hn]
  · intro hn
    simp [apply_to_options_max_tokens_eq, hn]

/-- Witness for the amended C6: maxTokens 7 is applied, maxTokens 0 leaves
the previous value 5 in place. -/
theorem maxTokens_overwrites_when_nonzero_witness :
    (apply_to_options
      ⟨none, some 5, none, none, [], none, none⟩
      ⟨none, some 7, none, none, none, none, none, none, none⟩).max_tokens = some 7
    ∧ (apply_to_options
      ⟨none, some 5, none, none, [], none, none⟩
      ⟨none, some 0, none, none, none, none, none, none, none⟩).max_tokens = some 5 := by
  constructor
  · exact (maxTokens_overwrites_when_nonzero
      ⟨none, some 5, none, none, [], none, none⟩
      ⟨none, some 7, none, none, none, none, none, none, none⟩).1 7 rfl (by decide)
  · exact (maxTokens_overwrites_when_nonzero
      ⟨none, some 5, none, none, [], none, none⟩
      ⟨none, some 0, none, none, none, none, none, none, none⟩).2.1 rfl

/-- C7: a present temperature is always applied, including the value 0.0;
only a missing or null temperature leaves the options value unchanged. -/
theorem temperature_present_always_applied (o : RuntimeOptions) (c : SDKConfig) :
    (∀ q : ℚ, c.temperature = some q → (apply_to_options o c).temperature = some q)
    ∧ (c.temperature = none → (apply_to_options o c).temperature = o.temperature) := by
  constructor
  · intro q hq
    simp [apply_to_options_temperature_eq, hq]
  · intro hq
    simp [apply_to_options_temperature_eq, hq]

/-- Witness for C7: a config temperature of 0.0 is written into options
whose temperature was 1, and a null temperature leaves 1 in place. -/
theorem temperature_present_always_applied_witness :
    (apply_to_options
      ⟨none, none, some 1, none, [], none, none⟩
      ⟨none, none, some 0, none, none, none, none, none, none⟩).temperature = some 0
    ∧ (apply_to_options
      ⟨none, none, some 1, none, [], none, none⟩
      ⟨none, none, none, none, none, none, none, none, none⟩).temperature = some 1 := by
  constructor
  · exact (temperature_present_always_applied
      ⟨none, none, some 1, none, [], none, none⟩
      ⟨none, none, some 0, none, none, none, none, none, none⟩).1 0 rfl
  · exact (temperature_present_always_applied
      ⟨none, none, some 1, none, [], none, none⟩
      ⟨none, none, none, none, none, none, none, none, none⟩).2 rfl

/-! Association-list dict lemmas used for the MCP server merge. -/

lemma getKey_setKey {α : Type} (m : List (String × α)) (k : String) (v : α) (q : String) :
    getKey (setKey m k v) q = if k = q then some v else getKey m q := by
  induction m with
  | nil =>
      unfold setKey getKey
      by_cases h : k = q <;> simp [h, getKey]
  | cons p rest ih =>
      obtain ⟨k0, v0⟩ := p
      unfold setKey
      by_cases h0 : k0 = k
      · subst h0
        unfold getKey
        by_cases h : k0 = q <;> simp [h, getKey]
      · simp only [if_neg h0]
        unfold getKey
        by_cases h1 : k0 = q
        · subst h1
          have : ¬ (k = k0) := fun hh => h0 hh.symm
          simp [this]
        · simp [h1, ih]

lemma getKey_some_mem {α : Type} (l : List (String × α)) (k : String) (v : α)
    (h : getKey l k = some v) : (k, v) ∈ l := by
  induction l with
  | nil => simp [getKey] at h
  | cons p rest ih =>
      obtain ⟨k0, v0⟩ := p
      unfold getKey at h
      by_cases hk : k0 = k
      · subst hk
        simp at h
        simp [h]
      · simp [hk] at h
        exact List.mem_cons_of_mem _ (ih h)

lemma keys_nodup_val_unique {α : Type} (l : List (String × α))
    (h : (l.map Prod.fst).Nodup) (k : String) (a b : α)
    (ha : (k, a) ∈ l) (hb : (k, b) ∈ l) : a = b := by
  induction l with
  | nil => simp at ha
  | cons p rest ih =>
      simp only [List.map_cons, List.nodup_cons] at h
      rcases List.mem_cons.mp ha with ha0 | ha1
      · rcases List.mem_cons.mp hb with hb0 | hb1
        · have hab : (k, a) = (k, b) := ha0.trans hb0.symm
          exact congrArg Prod.snd hab
        · exfalso
          apply h.1
          rw [← ha0]
          simp only [List.mem_map]
          exact ⟨(k, b), hb1, rfl⟩
      · rcases List.mem_cons.mp hb with hb0 | hb1
        · exfalso
          apply h.1
          rw [← hb0]
          simp only [List.mem_map]
          exact ⟨(k, a), ha1, rfl⟩
        · exact ih h.2 ha1 hb1

lemma foldl_merge_step_skips_name (name : String)
    (l : List (String × McpServerConfig))
    (h : ∀ p ∈ l, p.1 = name → p.2.enabled = some false) :
    ∀ acc : ServerMap, getKey (l.foldl merge_mcp_step acc) name = getKey acc name := by
  induction l with
  | nil => intro acc; rfl
  | cons p rest ih =>
      intro acc
      have hrest : ∀ q ∈ rest, q.1 = name → q.2.enabled = some false :=
        fun q hq => h q (List.mem_cons_of_mem _ hq)
      rw [List.foldl_cons, ih hrest]
      unfold merge_mcp_step
      by_cases hd : p.2.enabled = some false
      · simp [hd]
      · simp only [hd, if_false]
        rw [getKey_setKey]
        have hne : ¬ (p.1 = name) := fun hh => hd (h p (List.mem_cons_self _ _) hh)
        simp [hne]

/-- Counterexample to C1 as stated: the existing map already holds a server
named n, the config declares n with enabled = false, and the merged map
still holds the existing entry under n; the disabled declaration is merely
not added, it does not remove the existing entry. -/
theorem merge_disabled_keeps_existing_cex :
    (⟨none, none, none, none, none, none, none, none,
        some [("n", ⟨"cmd", none, none, some false⟩)]⟩ : SDKConfig).mcpServers
      = some [("n", ⟨"cmd", none, none, some false⟩)]
    ∧ getKey
        (merge_mcp_servers [("n", ServerVal.ext 0)]
          ⟨none, none, none, none, none, none, none, none,
            some [("n", ⟨"cmd", none, none, some false⟩)]⟩) "n"
      = some (ServerVal.ext 0) := by
  exact ⟨rfl, by decide⟩

/-- C1 amended: when the mcpServers object of the config maps the name n to
a declaration with enabled = false, merge_mcp_servers does not add or
override anything under n; the merged map holds under n exactly what the
existing map held there (so n is absent from the output only when it was
absent from the existing map). -/
theorem merge_mcp_servers_disabled_entry_untouched
    (existing : ServerMap) (c : SDKConfig)
    (l : List (String × McpServerConfig)) (name : String) (sc : McpServerConfig)
    (hl : c.mcpServers = some l)
    (hnd : (l.map Prod.fst).Nodup)
    (hmem : getKey l name = some sc)
    (hdis : sc.enabled = some false) :
    getKey (merge_mcp_servers existing c) name = getKey existing name := by
  have hall : ∀ p ∈ l, p.1 = name → p.2.enabled = some false := by
    rintro ⟨k, v⟩ hp hk
    subst hk
    have hmem' : (k, sc) ∈ l := getKey_some_mem l k sc hmem
    have : v = sc := keys_nodup_val_unique l hnd k v sc hp hmem'
    rw [this]
    exact hdis
  unfold merge_mcp_servers
  rw [hl]
  cases l with
  | nil => rfl
  | cons p rest => exact foldl_merge_step_skips_name name (p :: rest) hall existing

/-- Witness for the amended C1 at the counterexample input: merging a
disabled declaration for n over a map holding n leaves the lookup of n
unchanged. -/
theorem merge_mcp_servers_disabled_entry_untouched_witness :
    getKey
      (merge_mcp_servers [("n", ServerVal.ext 0)]
        ⟨none, none, none, none, none, none, none, none,
          some [("n", ⟨"cmd", none, none, some false⟩)]⟩) "n"
    = getKey [("n", ServerVal.ext 0)] "n" := by
  exact merge_mcp_servers_disabled_entry_untouched
    [("n", ServerVal.ext 0)]
    ⟨none, none, none, none, none, none, none, none,
      some [("n", ⟨"cmd", none, none, some false⟩)]⟩
    [("n", ⟨"cmd", none, none, some false⟩)] "n" ⟨"cmd", none, none, some false⟩
    rfl (by decide) (by decide) rfl

/-! A small heap model for the mutation claim about merge_mcp_servers: the
Python dicts live behind references into a store, existing_servers.copy()
allocates a fresh reference initialised with the contents of the argument,
and merged[name] = value writes through the fresh reference only. -/

/-- A store of dict objects addressed by numeric references; next is the
first unallocated reference, so every live reference is below it. -/
structure Heap where
  mem : Nat → ServerMap
  next : Nat

/-- One iteration of the merge loop acting on the heap: a disabled
declaration leaves the heap alone, any other declaration writes the
converted entry through the reference r of the merged dict. -/
def merge_heap_step (r : Nat) (hh : Heap) (nv : String × McpServerConfig) : Heap :=
  if nv.2.enabled = some false then hh
  else
    { hh with mem := fun i =>
        if i = r then setKey (hh.mem r) nv.1 (mcp_server_to_sdk nv.2) else hh.mem i }

/-- SDKConfigLoader.merge_mcp_servers on the heap model: with no truthy
mcpServers the argument reference itself is returned and the heap is
untouched; otherwise a fresh reference is allocated, initialised with a
copy of the contents of existing_ref, the merge loop runs writing only
through the fresh reference, and the fresh reference is returned. -/
def merge_mcp_servers_heap (h : Heap) (existing_ref : Nat) (c : SDKConfig) : Heap × Nat :=
  match c.mcpServers with
  | none => (h, existing_ref)
  | some [] => (h, existing_ref)
  | some servers =>
      let r := h.next
      let h1 : Heap :=
        { mem := fun i => if i = r then h.mem existing_ref else h.mem i,
          next := h.next + 1 }
      (servers.foldl (merge_heap_step r) h1, r)

lemma foldl_merge_heap_step_frame (r : Nat) (l : List (String × McpServerConfig)) :
    ∀ (hh : Heap) (i : Nat), i ≠ r → ((l.foldl (merge_heap_step r) hh).mem i = hh.mem i) := by
  induction l with
  | nil => intro hh i _; rfl
  | cons p rest ih =>
      intro hh i hi
      rw [List.foldl_cons, ih _ i hi]
      unfold merge_heap_step
      by_cases hd : p.2.enabled = some false
      · simp [hd]
      · simp [hd, hi]

/-- C10: merge_mcp_servers never mutates its existing_servers argument.
For every heap and every live reference to the existing map, the contents
behind that reference after the call are exactly the contents before, and
the returned reference is either the argument itself (no truthy mcpServers
in the config) or the freshly allocated copy. -/
theorem merge_mcp_servers_heap_no_mutation
    (h : Heap) (existing_ref : Nat) (c : SDKConfig)
    (href : existing_ref < h.next) :
    ((merge_mcp_servers_heap h existing_ref c).1.mem existing_ref = h.mem existing_ref)
    ∧ ((merge_mcp_servers_heap h existing_ref c).2 = existing_ref
       ∨ (merge_mcp_servers_heap h existing_ref c).2 = h.next) := by
  unfold merge_mcp_servers_heap
  cases hc : c.mcpServers with
  | none => exact ⟨rfl, Or.inl rfl⟩
  | some servers =>
      cases servers with
      | nil => exact ⟨rfl, Or.inl rfl⟩
      | cons p rest =>
          have hne : existing_ref ≠ h.next := Nat.ne_of_lt href
          constructor
          · rw [foldl_merge_heap_step_frame h.next (p :: rest) _ existing_ref hne]
            simp [hne]
          · exact Or.inr rfl

/-- Witness for C10 at a concrete heap: reference 0 holds one server named
n, the config declares a server m, and after the merge reference 0 still
holds exactly its old contents while the result lives at the fresh
reference 1. -/
theorem merge_mcp_servers_heap_no_mutation_witness :
    ((merge_mcp_servers_heap
        ⟨fun i => if i = 0 then [("n", ServerVal.ext 0)] else [], 1⟩ 0
        ⟨none, none, none, none, none, none, none, none,
          some [("m", ⟨"cmd", none, none, none⟩)]⟩).1.mem 0
      = (fun i => if i = 0 then [("n", ServerVal.ext 0)] else ([] : ServerMap)) 0)
    ∧ ((merge_mcp_servers_heap
        ⟨fun i => if i = 0 then [("n", ServerVal.ext 0)] else [], 1⟩ 0
        ⟨none, none, none, none, none, none, none, none,
          some [("m", ⟨"cmd", none, none, none⟩)]⟩).2 = 0
       ∨ (merge_mcp_servers_heap
        ⟨fun i => if i = 0 then [("n", ServerVal.ext 0)] else [], 1⟩ 0
        ⟨none, none, none, none, none, none, none, none,
          some [("m", ⟨"cmd", none, none, none⟩)]⟩).2 = 1) := by
  exact merge_mcp_servers_heap_no_mutation
    ⟨fun i => if i = 0 then [("n", ServerVal.ext 0)] else [], 1⟩ 0
    ⟨none, none, none, none, none, none, none, none,
      some [("m", ⟨"cmd", none, none, none⟩)]⟩
    (by decide)

/-! SDKConfigLoader.load_configuration. The HTTP exchange is embedded as an
abstract outcome value: urlopen either yields a 200 body, or raises
(HTTPError for a non-2xx status, a timeout, or a connection failure); JSON
decoding is an abstract partial parse function, none standing for a raised
json decode error. The single except block of the source maps every raised
case to None. -/

/-- Python str.rstrip(c): remove every trailing occurrence of the
character c. -/
def rstrip_char (s : String) (c : Char) : String :=
  String.mk (s.data.reverse.dropWhile (fun ch => ch = c)).reverse

/-- Outcome of the GET request issued by load_configuration. -/
inductive HttpOutcome where
  | ok : String → HttpOutcome
  | httpError : Nat → HttpOutcome
  | timeout : HttpOutcome
  | connectionError : HttpOutcome
deriving DecidableEq, Repr

/-- SDKConfigLoader.load_configuration: the backend URL is the
BACKEND_API_URL env value (empty when unset) with trailing slashes
stripped; an empty backend URL, any raising outcome and any json decode
failure all yield none, and a 200 whose body decodes yields the decoded
configuration. Totality of this function is the never-raises guarantee. -/
def load_configuration (backendEnv : Option String) (outcome : HttpOutcome)
    (parseJson : String → Option SDKConfig) : Option SDKConfig :=
  let backend_url := rstrip_char (backendEnv.getD "") '/'
  if backend_url = "" then none
  else
    match outcome with
    | HttpOutcome.ok body => parseJson body
    | HttpOutcome.httpError _ => none
    | HttpOutcome.timeout => none
    | HttpOutcome.connectionError => none

/-- C8: load_configuration returns the parsed configuration exactly on the
success path and None on every failure path (missing BACKEND_API_URL,
timeout, non-2xx status, connection failure, body that fails to decode),
and, being a total function of the environment and the request outcome, it
never raises to its caller. -/
theorem load_configuration_none_on_any_failure
    (backendEnv : Option String) (outcome : HttpOutcome)
    (parseJson : String → Option SDKConfig) :
    (rstrip_char (backendEnv.getD "") '/' = "" →
      load_configuration backendEnv outcome parseJson = none)
    ∧ (outcome = HttpOutcome.timeout →
      load_configuration backendEnv outcome parseJson = none)
    ∧ (∀ status, outcome = HttpOutcome.httpError status →
      load_configuration backendEnv outcome parseJson = none)
    ∧ (outcome = HttpOutcome.connectionError →
      load_configuration backendEnv outcome parseJson = none)
    ∧ (∀ body, outcome = HttpOutcome.ok body → parseJson body = none →
      load_configuration backendEnv outcome parseJson = none)
    ∧ (∀ body cfg, outcome = HttpOutcome.ok body → parseJson body = some cfg →
        rstrip_char (backendEnv.getD "") '/' ≠ "" →
        load_configuration backendEnv outcome parseJson = some cfg) := by
  refine ⟨?_, ?_, ?_, ?_, ?_, ?_⟩
  · intro hurl
    simp [load_configuration, hurl]
  · intro ho
    subst ho
    simp only [load_configuration]
    split <;> rfl
  · intro status ho
    subst ho
    simp only [load_configuration]
    split <;> rfl
  · intro ho
    subst ho
    simp only [load_configuration]
    split <;> rfl
  · intro body ho hp
    subst ho
    simp only [load_configuration]
    split
    · rfl
    · exact hp
  · intro body cfg ho hp hurl
    subst ho
    simp only [load_configuration]
    split
    · exact absurd (by assumption) hurl
    · exact hp

/-- Witness for C8: with no BACKEND_API_URL the result is none; with a
backend URL and a timeout it is none; with a backend URL, a 200 body and a
parse that succeeds it is the parsed configuration. -/
theorem load_configuration_none_on_any_failure_witness :
    load_configuration none HttpOutcome.timeout (fun _ => none) = none
    ∧ load_configuration (some "http://b/") HttpOutcome.timeout (fun _ => none) = none
    ∧ load_configuration (some "http://b") (HttpOutcome.ok "{}")
        (fun _ => some ⟨none, none, none, none, none, none, none, none, none⟩)
      = some ⟨none, none, none, none, none, none, none, none, none⟩ := by
  refine ⟨?_, ?_, ?_⟩
  · exact (load_configuration_none_on_any_failure none HttpOutcome.timeout
      (fun _ => none)).1 (by decide)
  · exact (load_configuration_none_on_any_failure (some "http://b/") HttpOutcome.timeout
      (fun _ => none)).2.1 rfl
  · exact (load_configuration_none_on_any_failure (some "http://b") (HttpOutcome.ok "{}")
      (fun _ => some ⟨none, none, none, none, none, none, none, none, none⟩)).2.2.2.2.2
      "{}" ⟨none, none, none, none, none, none, none, none, none⟩ rfl rfl (by decide)

/-! OAuthInspector. The classifier implementation lives outside the shipped
source tree (only its unit tests are present), so it is modelled from the
specification, section 4.2: the located credentials file is embedded as an
abstract file state, ISO-8601 parsing as an abstract partial parse function
returning a comparable instant, and the decision table is applied row by
row. -/

/-- Python str.lower() on the characters of s. -/
def to_lower (s : String) : String := String.mk (s.data.map Char.toLower)

/-- One on-disk OAuth record; a missing JSON key is none. -/
structure OAuthRecord where
  access_token : Option String
  refresh_token : Option String
  token_expiry : Option String
  email : Option String
deriving DecidableEq, Repr

/-- Ternary token-state classification. -/
inductive AuthStatus where
  | Valid : AuthStatus
  | NeedsRefresh : AuthStatus
  | Invalid : AuthStatus
deriving DecidableEq, Repr

/-- The state of the located OAuthRecordMap file: missing, zero-byte, JSON
parse failure, a top-level value that is not a mapping, or a mapping of
email keys to records. -/
inductive CredsFile where
  | absent : CredsFile
  | emptyFile : CredsFile
  | parseFail : CredsFile
  | notMapping : CredsFile
  | records : List (String × OAuthRecord) → CredsFile
deriving DecidableEq, Repr

/-- Modelled from the spec: one record's row in the decision table of
OAuthInspector.classify (section 4.2); the implementation
(_check_mcp_authentication) is not under the shipped source. Rows are
tried in table order: placeholder email, missing access or refresh token,
empty refresh token, unparseable expiry, strictly past expiry, and
otherwise Valid (expiry absent or not strictly past). -/
def classify_record (parseIso : String → Option Int) (now : Int)
    (key : String) (r : OAuthRecord) : AuthStatus × String :=
  if to_lower (r.email.getD "") = "user@example.com" then
    (AuthStatus.Invalid, key ++ ": placeholder email")
  else if r.access_token = none ∨ r.refresh_token = none then
    (AuthStatus.Invalid, key ++ ": incomplete token record")
  else if r.refresh_token = some "" then
    (AuthStatus.Invalid, key ++ ": empty refresh token")
  else
    match r.token_expiry with
    | none => (AuthStatus.Valid, key)
    | some ts =>
        match parseIso ts with
        | none => (AuthStatus.NeedsRefresh, key ++ ": invalid timestamp " ++ ts)
        | some t =>
            if t < now then (AuthStatus.NeedsRefresh, key ++ ": refresh needed")
            else (AuthStatus.Valid, key)

/-- Modelled from the spec: OAuthInspector.classify (section 4.2); the
implementation (_check_mcp_authentication) is not under the shipped
source. A missing, zero-byte, unparseable or non-mapping file and an empty
mapping are Invalid; otherwise each record is checked against the decision
table and the first non-Valid verdict wins, a fully Valid map reporting
the primary email. -/
def classify (parseIso : String → Option Int) (now : Int)
    (file : CredsFile) : AuthStatus × String :=
  match file with
  | CredsFile.absent => (AuthStatus.Invalid, "Google Workspace credentials not configured")
  | CredsFile.emptyFile => (AuthStatus.Invalid, "not configured: empty credentials file")
  | CredsFile.parseFail => (AuthStatus.Invalid, "credentials file corrupted")
  | CredsFile.notMapping => (AuthStatus.Invalid, "not configured: unexpected structure")
  | CredsFile.records [] => (AuthStatus.Invalid, "not configured: no accounts")
  | CredsFile.records recs =>
      let results := recs.map (fun p => classify_record parseIso now p.1 p.2)
      match results.find? (fun st => if st.1 = AuthStatus.Valid then false else true) with
      | some bad => bad
      | none => (AuthStatus.Valid, "authenticated as " ++ (recs.map Prod.fst).headD "")

/-- C3: a record map whose record is complete (access token present,
refresh token present and nonempty, a genuine email) but whose
token_expiry string the ISO-8601 parser rejects classifies as
NeedsRefresh, with a message naming the invalid timestamp, and in
particular never as Valid. -/
theorem classify_unparseable_expiry_needs_refresh
    (parseIso : String → Option Int) (now : Int)
    (key a rt em ts : String)
    (hrt : rt ≠ "")
    (hem : to_lower em ≠ "user@example.com")
    (hts : parseIso ts = none) :
    (classify parseIso now
        (CredsFile.records [(key, ⟨some a, some rt, some ts, some em⟩)])).1
      = AuthStatus.NeedsRefresh
    ∧ (classify parseIso now
        (CredsFile.records [(key, ⟨some a, some rt, some ts, some em⟩)])).2
      = key ++ ": invalid timestamp " ++ ts
    ∧ (classify parseIso now
        (CredsFile.records [(key, ⟨some a, some rt, some ts, some em⟩)])).1
      ≠ AuthStatus.Valid := by
  have hrec : classify_record parseIso now key ⟨some a, some rt, some ts, some em⟩
      = (AuthStatus.NeedsRefresh, key ++ ": invalid timestamp " ++ ts) := by
    unfold classify_record
    simp [hem, hrt, hts]
  refine ⟨?_, ?_, ?_⟩ <;>
    simp [classify, hrec]

/-- Witness for C3 at the literal test scenario: a complete record for
user@gmail.com whose expiry string is not-a-valid-timestamp, under a
parser that rejects it, yields NeedsRefresh and the invalid-timestamp
message. -/
theorem classify_unparseable_expiry_needs_refresh_witness :
    (classify (fun _ => none) 0
        (CredsFile.records [("user@gmail.com",
          ⟨some "ya29.token", some "1//refresh", some "not-a-valid-timestamp",
            some "user@gmail.com"⟩)])).1
      = AuthStatus.NeedsRefresh
    ∧ (classify (fun _ => none) 0
        (CredsFile.records [("user@gmail.com",
          ⟨some "ya29.token", some "1//refresh", some "not-a-valid-timestamp",
            some "user@gmail.com"⟩)])).2
      = "user@gmail.com" ++ ": invalid timestamp " ++ "not-a-valid-timestamp" := by
  have h := classify_unparseable_expiry_needs_refresh (fun _ => none) 0
    "user@gmail.com" "ya29.token" "1//refresh" "user@gmail.com" "not-a-valid-timestamp"
    (by decide) (by decide) rfl
  exact ⟨h.1, h.2.1⟩

/-! GitIdentityConfigurator and RuntimeCredentialOrchestrator. Neither
implementation (configure_git_identity and populate_runtime_credentials in
auth.py) is under the shipped source tree - only their unit tests are - so
both are modelled from the specification, sections 4.3 and 4.5. The
process environment is a partial map from variable names to values, and
the VCS subprocess invocation is an abstract outcome that can only affect
the persisted git configuration, never the environment. -/

/-- A process environment: variable name to value, none when unset. -/
def Env : Type := String → Option String

/-- os.environ[k] = v. -/
def setEnv (e : Env) (k v : String) : Env :=
  fun q => if q = k then some v else e q

/-- Python str.strip(): remove leading and trailing whitespace. -/
def strip_ws (s : String) : String :=
  String.mk
    (((s.data.dropWhile Char.isWhitespace).reverse.dropWhile Char.isWhitespace).reverse)

/-- The process-visible state touched by the credential orchestration: the
environment, the persisted global VCS configuration, and the workspace
OAuthRecordMap copy (none when the file does not exist). -/
structure RunnerState where
  env : Env
  gitConfig : List (String × String)
  oauthFile : Option (List (String × OAuthRecord))

/-- Outcome of one VCS subprocess invocation. -/
inductive SubprocessOutcome where
  | success : SubprocessOutcome
  | failure : Nat → SubprocessOutcome
  | timeout : SubprocessOutcome
deriving DecidableEq, Repr

/-- Modelled from the spec: GitIdentityConfigurator.apply, section 4.3; the
implementation (configure_git_identity in auth.py) is not under the
shipped source. Both inputs are stripped of whitespace; empty values fall
back to the defaults Ambient Code Bot and bot@ambient-code.local; the
GIT_USER_NAME and GIT_USER_EMAIL environment variables are set
unconditionally before the VCS tool runs; the VCS tool persists user.name
and user.email only on success, and its failure or timeout does not
propagate and leaves the already-written environment in place. -/
def configure_git_identity (s : RunnerState) (userName email : String)
    (r : SubprocessOutcome) : RunnerState :=
  let n0 := strip_ws userName
  let m0 := strip_ws email
  let n := if n0 = "" then "Ambient Code Bot" else n0
  let m := if m0 = "" then "bot@ambient-code.local" else m0
  let env := setEnv (setEnv s.env "GIT_USER_NAME" n) "GIT_USER_EMAIL" m
  let cfg :=
    match r with
    | SubprocessOutcome.success =>
        setKey (setKey s.gitConfig "user.name" n) "user.email" m
    | SubprocessOutcome.failure _ => s.gitConfig
    | SubprocessOutcome.timeout => s.gitConfig
  { s with env := env, gitConfig := cfg }

lemma configure_git_identity_name_lookup (s : RunnerState) (userName email : String)
    (r : SubprocessOutcome) :
    (configure_git_identity s userName email r).env "GIT_USER_NAME"
      = some (if strip_ws userName = "" then "Ambient Code Bot" else strip_ws userName) := by
  unfold configure_git_identity setEnv
  simp

lemma configure_git_identity_email_lookup (s : RunnerState) (userName email : String)
    (r : SubprocessOutcome) :
    (configure_git_identity s userName email r).env "GIT_USER_EMAIL"
      = some (if strip_ws email = "" then "bot@ambient-code.local" else strip_ws email) := by
  unfold configure_git_identity setEnv
  simp

lemma configure_git_identity_env_independent_of_subprocess
    (s : RunnerState) (userName email : String) (r : SubprocessOutcome) :
    (configure_git_identity s userName email r).env
      = (configure_git_identity s userName email SubprocessOutcome.success).env := by
  unfold configure_git_identity
  cases r <;> rfl

/-- C9: for every input pair and every subprocess outcome, GIT_USER_NAME
and GIT_USER_EMAIL are set in the environment to the stripped inputs, or
the defaults when those strip to empty, and the environment after a failed
or timed-out VCS invocation is identical to the environment after a
successful one: the subprocess failure neither propagates nor undoes the
writes. -/
theorem configure_git_identity_sets_env_despite_subprocess
    (s : RunnerState) (userName email : String) (r : SubprocessOutcome) :
    (configure_git_identity s userName email r).env "GIT_USER_NAME"
      = some (if strip_ws userName = "" then "Ambient Code Bot" else strip_ws userName)
    ∧ (configure_git_identity s userName email r).env "GIT_USER_EMAIL"
      = some (if strip_ws email = "" then "bot@ambient-code.local" else strip_ws email)
    ∧ (configure_git_identity s userName email r).env
      = (configure_git_identity s userName email SubprocessOutcome.success).env := by
  exact ⟨configure_git_identity_name_lookup s userName email r,
    configure_git_identity_email_lookup s userName email r,
    configure_git_identity_env_independent_of_subprocess s userName email r⟩

/-- A per-provider credential bundle from the control plane: the shared
token and identity fields, the gitlab instance URL extension and the
google OAuth record payload; a bundle value of none stands for an Absent
bundle (empty mapping). A missing field inside a bundle is none. -/
structure CredentialBundle where
  token : Option String
  userName : Option String
  email : Option String
  instanceUrl : Option String
  oauthRecords : Option (List (String × OAuthRecord))
deriving DecidableEq, Repr

/-- A bundle is Present when at least its token is populated. -/
def bundle_present : Option CredentialBundle → Bool
  | some b => if b.token.getD "" = "" then false else true
  | none => false

/-- A bundle carries identity fields when its userName or email is
populated. -/
def carries_identity (b : CredentialBundle) : Bool :=
  if b.userName.getD "" = "" then
    (if b.email.getD "" = "" then false else true)
  else true

/-- The identity a bundle contributes: present and carrying identity
fields, its (userName, email) pair, missing fields read as empty. -/
def identity_of (ob : Option CredentialBundle) : Option (String × String) :=
  match ob with
  | some b =>
      if bundle_present (some b) && carries_identity b then
        some (b.userName.getD "", b.email.getD "")
      else none
  | none => none

/-- Modelled from the spec: step 3 of
RuntimeCredentialOrchestrator.populate, section 4.5 (the implementation in
auth.py is not under the shipped source): git identity comes from the
first Present bundle carrying identity fields in the order github then
gitlab, and is the empty pair when neither qualifies. -/
def choose_git_identity (github gitlab : Option CredentialBundle) : String × String :=
  match identity_of github with
  | some p => p
  | none =>
      match identity_of gitlab with
      | some p => p
      | none => ("", "")

/-- Modelled from the spec: OAuthInspector.primary_email, section 4.2: the
first non-placeholder email key of the record map. -/
def primary_email (records : List (String × OAuthRecord)) : Option String :=
  (records.map Prod.fst).find?
    (fun k => if to_lower k = "user@example.com" then false else true)

/-- Modelled from the spec: the google materializer of section 4.5: write
the oauthRecords payload (if any) to the workspace OAuthRecordMap, then
set USER_GOOGLE_EMAIL from the primary email of that map when one exists. -/
def materialize_google (s : RunnerState) (b : CredentialBundle) : RunnerState :=
  let file :=
    match b.oauthRecords with
    | some recs => some recs
    | none => s.oauthFile
  let env :=
    match file with
    | some recs =>
        match primary_email recs with
        | some em => setEnv s.env "USER_GOOGLE_EMAIL" em
        | none => s.env
    | none => s.env
  { s with env := env, oauthFile := file }

/-- Modelled from the spec: the jira materializer of section 4.5: set the
ATLASSIAN_API_TOKEN, ATLASSIAN_EMAIL and ATLASSIAN_SITE_URL variables as
present in the bundle. -/
def materialize_jira (s : RunnerState) (b : CredentialBundle) : RunnerState :=
  let e1 :=
    match b.token with
    | some t => if t = "" then s.env else setEnv s.env "ATLASSIAN_API_TOKEN" t
    | none => s.env
  let e2 :=
    match b.email with
    | some m => if m = "" then e1 else setEnv e1 "ATLASSIAN_EMAIL" m
    | none => e1
  let e3 :=
    match b.instanceUrl with
    | some u => if u = "" then e2 else setEnv e2 "ATLASSIAN_SITE_URL" u
    | none => e2
  { s with env := e3 }

/-- Modelled from the spec: the gitlab materializer of section 4.5: set
GITLAB_TOKEN, and GITLAB_URL when instanceUrl is present. -/
def materialize_gitlab (s : RunnerState) (b : CredentialBundle) : RunnerState :=
  let e1 :=
    match b.token with
    | some t => if t = "" then s.env else setEnv s.env "GITLAB_TOKEN" t
    | none => s.env
  let e2 :=
    match b.instanceUrl with
    | some u => if u = "" then e1 else setEnv e1 "GITLAB_URL" u
    | none => e1
  { s with env := e2 }

/-- Modelled from the spec: the github materializer of section 4.5: set
GITHUB_TOKEN. -/
def materialize_github (s : RunnerState) (b : CredentialBundle) : RunnerState :=
  let e1 :=
    match b.token with
    | some t => if t = "" then s.env else setEnv s.env "GITHUB_TOKEN" t
    | none => s.env
  { s with env := e1 }

/-- Step 2 guard of section 4.5: a materializer runs only on a Present
bundle. -/
def apply_if_present (s : RunnerState) (ob : Option CredentialBundle)
    (mat : RunnerState → CredentialBundle → RunnerState) : RunnerState :=
  match ob with
  | some b => if bundle_present (some b) then mat s b else s
  | none => s

/-- Modelled from the spec: RuntimeCredentialOrchestrator.populate,
section 4.5 (the implementation populate_runtime_credentials in auth.py is
not under the shipped source): after all four bundles settle, each Present
bundle is materialized, and git identity is applied with github-over-gitlab
precedence, the empty pair when neither carries identity. -/
def populate_runtime_credentials (s : RunnerState)
    (google jira gitlab github : Option CredentialBundle)
    (r : SubprocessOutcome) : RunnerState :=
  let s1 := apply_if_present s google materialize_google
  let s2 := apply_if_present s1 jira materialize_jira
  let s3 := apply_if_present s2 gitlab materialize_gitlab
  let s4 := apply_if_present s3 github materialize_github
  let idp := choose_git_identity github gitlab
  configure_git_identity s4 idp.1 idp.2 r

/-- C4: when the github bundle is Present and carries identity fields, the
git identity applied by populate comes from the github bundle whatever the
gitlab bundle holds, so in particular when both carry identity github
wins; and when neither the github nor the gitlab bundle is given, identity
is applied with the empty pair and the defaults Ambient Code Bot and
bot@ambient-code.local end up in the environment. -/
theorem populate_git_identity_github_wins_and_defaults
    (s : RunnerState) (google jira : Option CredentialBundle)
    (r : SubprocessOutcome) (gh : CredentialBundle) (t u m : String)
    (ht : gh.token = some t) (ht' : t ≠ "")
    (hu : gh.userName = some u) (hu' : u ≠ "") (hm : gh.email = some m) :
    (∀ gitlab : Option CredentialBundle,
      (populate_runtime_credentials s google jira gitlab (some gh) r).env "GIT_USER_NAME"
        = some (if strip_ws u = "" then "Ambient Code Bot" else strip_ws u)
      ∧ (populate_runtime_credentials s google jira gitlab (some gh) r).env "GIT_USER_EMAIL"
        = some (if strip_ws m = "" then "bot@ambient-code.local" else strip_ws m))
    ∧ ((populate_runtime_credentials s google jira none none r).env "GIT_USER_NAME"
        = some "Ambient Code Bot"
      ∧ (populate_runtime_credentials s google jira none none r).env "GIT_USER_EMAIL"
        = some "bot@ambient-code.local") := by
  have hident : identity_of (some gh) = some (u, m) := by
    unfold identity_of bundle_present carries_identity
    simp [ht, hu, hm, ht', hu']
  constructor
  · intro gitlab
    have hch : choose_git_identity (some gh) gitlab = (u, m) := by
      unfold choose_git_identity
      rw [hident]
    constructor
    · simp only [populate_runtime_credentials, hch]
      exact configure_git_identity_name_lookup _ u m r
    · simp only [populate_runtime_credentials, hch]
      exact configure_git_identity_email_lookup _ u m r
  · have hch : choose_git_identity (none : Option CredentialBundle) none = ("", "") := rfl
    constructor
    · simp only [populate_runtime_credentials, hch]
      have h := configure_git_identity_name_lookup
        (apply_if_present
          (apply_if_present
            (apply_if_present (apply_if_present s google materialize_google)
              jira materialize_jira) none materialize_gitlab)
          none materialize_github) "" "" r
      simpa using h
    · simp only [populate_runtime_credentials, hch]
      have h := configure_git_identity_email_lookup
        (apply_if_present
          (apply_if_present
            (apply_if_present (apply_if_present s google materialize_google)
              jira materialize_jira) none materialize_gitlab)
          none materialize_github) "" "" r
      simpa using h

/-- Witness for C4 at the literal test scenario: github carries GH User /
g@h and gitlab carries GL / l@l, yet the applied identity is the github
one; with no bundles at all the defaults are applied. -/
theorem populate_git_identity_github_wins_and_defaults_witness :
    ((populate_runtime_credentials ⟨fun _ => none, [], none⟩ none none
        (some ⟨some "glpat", some "GL", some "l@l", none, none⟩)
        (some ⟨some "ghp", some "GH User", some "g@h", none, none⟩)
        SubprocessOutcome.success).env "GIT_USER_NAME" = some "GH User")
    ∧ ((populate_runtime_credentials ⟨fun _ => none, [], none⟩ none none
        (some ⟨some "glpat", some "GL", some "l@l", none, none⟩)
        (some ⟨some "ghp", some "GH User", some "g@h", none, none⟩)
        SubprocessOutcome.success).env "GIT_USER_EMAIL" = some "g@h")
    ∧ ((populate_runtime_credentials ⟨fun _ => none, [], none⟩ none none
        none none SubprocessOutcome.success).env "GIT_USER_NAME"
      = some "Ambient Code Bot")
    ∧ ((populate_runtime_credentials ⟨fun _ => none, [], none⟩ none none
        none none SubprocessOutcome.success).env "GIT_USER_EMAIL"
      = some "bot@ambient-code.local") := by
  have h := populate_git_identity_github_wins_and_defaults
    ⟨fun _ => none, [], none⟩ none none SubprocessOutcome.success
    ⟨some "ghp", some "GH User", some "g@h", none, none⟩
    "ghp" "GH User" "g@h" rfl (by decide) rfl (by decide) rfl
  have ha := h.1 (some ⟨some "glpat", some "GL", some "l@l", none, none⟩)
  refine ⟨?_, ?_, h.2.1, h.2.2⟩
  · rw [ha.1]
    decide
  · rw [ha.2]
    decide
